import Mathlib

/-!
Verification development for the SkoolKit tape fast-load core.

Embedded here, translated from the Python source:
  - skoolkit/loadsample.py : the `Accelerator` class and the `ACCELERATORS`
    registry (all canonical entries and the alias entries appended after it).
  - utils/trace.py : the reference `Tracer`'s per-instruction stop decision.

The fast-load engine itself (tap2sna's sim-load), the tape-container decoder
and the Z80 simulator are not part of the source tree available here (only
their tests are), so those parts are modelled from the specification; each
such definition carries a doc comment starting `Modelled from the spec:`.
-/

namespace SkoolKit

/-- Accelerator record, mirroring `loadsample.Accelerator.__init__`:
the constructor receives the full signature byte list `code` (where `none`
is a wildcard position) and splits it into `opcode := code[0]` and
`code := code[1:]`, storing the timing constants unchanged. -/
structure Accelerator where
  name : String
  opcode : Option Nat
  code : List (Option Nat)
  in_time : Nat
  loop_time : Nat
  loop_r_inc : Nat
  ear_mask : Nat
deriving DecidableEq

/-- Constructor mirroring `Accelerator.__init__(name, code, in_time,
loop_time, loop_r_inc, ear_mask)`. -/
def Accelerator.make (name : String) (code : List (Option Nat))
    (in_time loop_time loop_r_inc ear_mask : Nat) : Accelerator :=
  { name := name
    opcode := (code.head?).getD none
    code := code.tail
    in_time := in_time
    loop_time := loop_time
    loop_r_inc := loop_r_inc
    ear_mask := ear_mask }

def alkatraz : Accelerator :=
  Accelerator.make "alkatraz"
    [some 0x04, some 0x20, some 0x03, none, none, none, some 0xDB, some 0xFE,
     some 0x1F, some 0xC8, some 0xA9, some 0xE6, some 0x20, some 0x28, some 0xF1]
    16 59 8 0x20

def alkatraz05 : Accelerator :=
  Accelerator.make "alkatraz-05"
    [some 0x04, some 0x20, some 0x05, none, none, none, none, none,
     some 0xDB, some 0xFE, some 0x1F, some 0xC8, some 0xA9, some 0xE6, some 0x20,
     some 0x28, some 0xEF]
    16 59 8 0x20

def alkatraz09 : Accelerator :=
  Accelerator.make "alkatraz-09"
    [some 0x04, some 0x20, some 0x09, none, none, none, none, none, none, none,
     none, none, some 0xDB, some 0xFE, some 0x1F, some 0xC8, some 0xA9,
     some 0xE6, some 0x20, some 0x28, some 0xEB]
    16 59 8 0x20

def alkatraz0a : Accelerator :=
  Accelerator.make "alkatraz-0a"
    [some 0x04, some 0x20, some 0x0A, none, none, none, none, none, none, none,
     none, none, none, some 0xDB, some 0xFE, some 0x1F, some 0xC8, some 0xA9,
     some 0xE6, some 0x20, some 0x28, some 0xEA]
    16 59 8 0x20

def alkatraz0b : Accelerator :=
  Accelerator.make "alkatraz-0b"
    [some 0x04, some 0x20, some 0x0B, none, none, none, none, none, none, none,
     none, none, none, none, some 0xDB, some 0xFE, some 0x1F, some 0xC8,
     some 0xA9, some 0xE6, some 0x20, some 0x28, some 0xE9]
    16 59 8 0x20

def alkatraz2 : Accelerator :=
  Accelerator.make "alkatraz2"
    [some 0x04, some 0x20, some 0x01, some 0xC9, some 0xDB, some 0xFE,
     some 0x1F, some 0xC8, some 0xA9, some 0xE6, some 0x20, some 0x28, some 0xF3]
    16 59 8 0x20

def alternative : Accelerator :=
  Accelerator.make "alternative"
    [some 0x04, some 0xC8, some 0x3E, some 0x7F, some 0xDB, some 0xFE,
     some 0xCB, some 0x1F, some 0x00, some 0xA9, some 0xE6, some 0x20,
     some 0x28, some 0xF2]
    16 62 10 0x20

def alternative2 : Accelerator :=
  Accelerator.make "alternative2"
    [some 0x04, some 0xC8, some 0x3E, some 0x7F, some 0xDB, some 0xFE,
     some 0xCB, some 0x1F, some 0xD0, some 0xA9, some 0xE6, some 0x20,
     some 0x28, some 0xF2]
    16 63 10 0x20

def bleepload : Accelerator :=
  Accelerator.make "bleepload"
    [some 0x04, some 0xC8, some 0x3E, some 0x7F, some 0xDB, some 0xFE,
     some 0x1F, some 0x00, some 0xA9, some 0xE6, some 0x20, some 0x28, some 0xF3]
    16 58 9 0x20

def boguslawJuza : Accelerator :=
  Accelerator.make "boguslaw-juza"
    [some 0x04, some 0xC8, some 0x3E, some 0x7F, some 0xDB, some 0xFE,
     some 0x1F, some 0xD6, some 0x00, some 0xA9, some 0xE6, some 0x20,
     some 0x28, some 0xF2]
    16 61 9 0x20

def crl : Accelerator :=
  Accelerator.make "crl"
    [some 0x04, some 0xC8, some 0x3E, some 0x7F, some 0xDB, some 0xFE,
     some 0xB7, some 0xD8, some 0xA9, some 0xE6, some 0x40, some 0x28, some 0xF3]
    16 59 9 0x40

def crl2 : Accelerator :=
  Accelerator.make "crl2"
    [some 0x04, some 0xC8, some 0xC8, some 0x3E, some 0x7F, some 0xDB,
     some 0xFE, some 0x1F, some 0xA9, some 0xE6, some 0x20, some 0x28, some 0xF3]
    21 59 9 0x20

def crl3 : Accelerator :=
  Accelerator.make "crl3"
    [some 0x04, some 0x28, none, some 0x3E, some 0x7F, some 0xDB, some 0xFE,
     some 0x1F, some 0x30, none, some 0xA9, some 0xE6, some 0x20, some 0x28,
     some 0xF1]
    18 63 9 0x20

def crl4 : Accelerator :=
  Accelerator.make "crl4"
    [some 0x04, some 0xC8, some 0x3E, some 0x7F, some 0xDB, some 0xFE,
     some 0x1F, some 0xA9, some 0xE6, some 0x20, some 0xE6, some 0x20,
     some 0x28, some 0xF2]
    16 61 9 0x20

def cybexlab : Accelerator :=
  Accelerator.make "cybexlab"
    [some 0x04, some 0xC8, some 0xAF, some 0xDB, some 0xFE, some 0x1F,
     some 0xD0, some 0xA9, some 0xE6, some 0x20, some 0x28, some 0xF4]
    13 56 9 0x20

def dAndH : Accelerator :=
  Accelerator.make "d-and-h"
    [some 0x04, some 0xC8, some 0x3E, some 0x7F, some 0xDB, some 0xFE,
     some 0xED, some 0x4F, some 0xA9, some 0xE6, some 0x40, some 0x28, some 0xF3]
    16 59 0 0x40

def delphine : Accelerator :=
  Accelerator.make "delphine"
    [some 0x04, some 0xC8, some 0x3E, some 0x7F, some 0xDB, some 0xFE,
     some 0xA7, some 0xD8, some 0xA9, some 0xE6, some 0x40, some 0x28, some 0xF3]
    16 59 9 0x40

def designDesign : Accelerator :=
  Accelerator.make "design-design"
    [some 0x04, some 0xCA, none, none, some 0x3E, some 0x7F, some 0xDB,
     some 0xFE, some 0x1F, some 0xA9, some 0xE6, some 0x20, some 0x28, some 0xF2]
    21 59 8 0x20

def digitalIntegration : Accelerator :=
  Accelerator.make "digital-integration"
    [some 0x05, some 0xC8, some 0xDB, some 0xFE, some 0xA9, some 0xE6,
     some 0x40, some 0xCA]
    9 41 6 0x40

def dinaload : Accelerator :=
  Accelerator.make "dinaload"
    [some 0x04, some 0xC8, some 0x3E, some 0xFF, some 0xDB, some 0xFE,
     some 0x1F, some 0xD0, some 0xA9, some 0xE6, some 0x20, some 0x28, some 0xF3]
    16 59 9 0x20

def gremlin : Accelerator :=
  Accelerator.make "gremlin"
    [some 0x04, some 0xC8, some 0x3E, some 0x7F, some 0xDB, some 0xFE,
     some 0xA9, some 0xE6, some 0x40, some 0x28, some 0xF5]
    16 50 7 0x40

def gremlin2 : Accelerator :=
  Accelerator.make "gremlin2"
    [some 0x04, some 0xC8, some 0x3E, some 0xFF, some 0xDB, some 0xFE,
     some 0xA9, some 0xE6, some 0x40, some 0xD8, some 0x00, some 0x28, some 0xF3]
    16 59 9 0x40

def microprose : Accelerator :=
  Accelerator.make "microprose"
    [some 0x04, some 0xC8, some 0xDB, some 0xFE, some 0x1F, some 0xC8,
     some 0xA9, some 0xE6, some 0x20, some 0x28, some 0xF5]
    9 52 8 0x20

def microsphere : Accelerator :=
  Accelerator.make "microsphere"
    [some 0x04, some 0xC8, some 0x3E, some 0x7F, some 0xDB, some 0xFE,
     some 0x1F, some 0xA7, some 0xA9, some 0xE6, some 0x20, some 0x28, some 0xF3]
    16 58 9 0x20

def microStyle : Accelerator :=
  Accelerator.make "micro-style"
    [some 0x04, some 0xC8, some 0x3E, some 0x7F, some 0x3E, some 0x7F,
     some 0xDB, some 0xFE, some 0x1F, some 0x00, some 0xA9, some 0xE6,
     some 0x20, some 0x28, some 0xF1]
    23 65 10 0x20

def palas : Accelerator :=
  Accelerator.make "palas"
    [some 0x04, some 0xC8, some 0xAF, some 0xDB, some 0xFE, some 0x1F,
     some 0xB7, some 0xA9, some 0xE6, some 0x20, some 0x28, some 0xF4]
    13 55 9 0x20

def paulOwens : Accelerator :=
  Accelerator.make "paul-owens"
    [some 0x04, some 0xC8, some 0x3E, some 0x7F, some 0xDB, some 0xFE,
     some 0x1F, some 0xC8, some 0xA9, some 0xE6, some 0x20, some 0x28, some 0xF3]
    16 59 9 0x20

def raxoft : Accelerator :=
  Accelerator.make "raxoft"
    [some 0x04, some 0xC8, some 0xAF, some 0xDB, some 0xFE, some 0x1F,
     some 0x00, some 0xA9, some 0xE6, some 0x20, some 0x28, some 0xF4]
    13 55 9 0x20

def realtime : Accelerator :=
  Accelerator.make "realtime"
    [some 0x04, some 0xC8, some 0x00, some 0x00, some 0x00, some 0xDB,
     some 0xFE, some 0x1F, some 0xA9, some 0xE6, some 0x20, some 0x28, some 0xF3]
    21 59 10 0x20

def rom : Accelerator :=
  Accelerator.make "rom"
    [some 0x04, some 0xC8, some 0x3E, some 0x7F, some 0xDB, some 0xFE,
     some 0x1F, some 0xD0, some 0xA9, some 0xE6, some 0x20, some 0x28, some 0xF3]
    16 59 9 0x20

def searchLoader : Accelerator :=
  Accelerator.make "search-loader"
    [some 0x04, some 0xC8, some 0x3E, some 0x00, some 0xDB, some 0xFE,
     some 0xA9, some 0xE6, some 0x40, some 0xD8, some 0x00, some 0x28, some 0xF3]
    16 59 9 0x40

def silverbird : Accelerator :=
  Accelerator.make "silverbird"
    [some 0x04, some 0x28, none, some 0x3A, some 0x00, some 0x00, some 0x7F,
     some 0xDB, some 0xFE, some 0xA9, some 0xE6, some 0x40, some 0x28, some 0xF2]
    28 62 8 0x40

def sparklers : Accelerator :=
  Accelerator.make "sparklers"
    [some 0x04, some 0xC8, some 0xAF, some 0xDB, some 0xFE, some 0x1F,
     some 0x00, some 0x00, some 0xA9, some 0xE6, some 0x20, some 0x28, some 0xF3]
    13 59 10 0x20

def speedlock : Accelerator :=
  Accelerator.make "speedlock"
    [some 0x04, some 0xC8, some 0x3E, some 0x7F, some 0xDB, some 0xFE,
     some 0x1F, some 0xA9, some 0xE6, some 0x20, some 0x28, some 0xF4]
    16 54 8 0x20

def suzySoft : Accelerator :=
  Accelerator.make "suzy-soft"
    [some 0x04, some 0xC8, some 0x3E, some 0xFB, some 0xDB, some 0xFE,
     some 0x1F, some 0xD0, some 0xA9, some 0xE6, some 0x20, some 0x28, some 0xF3]
    16 59 9 0x20

def suzySoft2 : Accelerator :=
  Accelerator.make "suzy-soft2"
    [some 0x04, some 0xC8, some 0x3E, some 0xF7, some 0xDB, some 0xFE,
     some 0x1F, some 0xA9, some 0xE6, some 0x20, some 0x28, some 0xF4]
    16 54 8 0x20

def tiny : Accelerator :=
  Accelerator.make "tiny"
    [some 0x04, some 0xC8, some 0xDB, some 0xFE, some 0xA9, some 0xE6,
     some 0x40, some 0x28, some 0xF7]
    9 43 6 0x40

def weirdScience : Accelerator :=
  Accelerator.make "weird-science"
    [some 0x04, some 0xC8, some 0x3E, some 0x7F, some 0xDB, some 0xFE,
     some 0x37, some 0xD0, some 0xA9, some 0xE6, some 0x40, some 0x28, some 0xF3]
    16 59 9 0x40

/-- The `ACCELERATORS` registry: the canonical entries in the order of the
module-level dict literal, followed by the alias keys assigned after it
(`ACCELERATORS[alias] = ACCELERATORS[canonical]`), each alias bound to the
very same entry as its canonical key. -/
def ACCELERATORS : List (String × Accelerator) := [
  ("alkatraz", alkatraz),
  ("alkatraz-05", alkatraz05),
  ("alkatraz-09", alkatraz09),
  ("alkatraz-0a", alkatraz0a),
  ("alkatraz-0b", alkatraz0b),
  ("alkatraz2", alkatraz2),
  ("alternative", alternative),
  ("alternative2", alternative2),
  ("bleepload", bleepload),
  ("boguslaw-juza", boguslawJuza),
  ("crl", crl),
  ("crl2", crl2),
  ("crl3", crl3),
  ("crl4", crl4),
  ("cybexlab", cybexlab),
  ("d-and-h", dAndH),
  ("delphine", delphine),
  ("design-design", designDesign),
  ("digital-integration", digitalIntegration),
  ("dinaload", dinaload),
  ("gremlin", gremlin),
  ("gremlin2", gremlin2),
  ("microprose", microprose),
  ("microsphere", microsphere),
  ("micro-style", microStyle),
  ("palas", palas),
  ("paul-owens", paulOwens),
  ("raxoft", raxoft),
  ("realtime", realtime),
  ("rom", rom),
  ("search-loader", searchLoader),
  ("silverbird", silverbird),
  ("sparklers", sparklers),
  ("speedlock", speedlock),
  ("suzy-soft", suzySoft),
  ("suzy-soft2", suzySoft2),
  ("tiny", tiny),
  ("weird-science", weirdScience),
  ("cyberlode", bleepload),
  ("edge", rom),
  ("elite-uni-loader", speedlock),
  ("excelerator", bleepload),
  ("flash-loader", rom),
  ("ftl", speedlock),
  ("gargoyle", speedlock),
  ("hewson-slowload", rom),
  ("injectaload", bleepload),
  ("poliload", dinaload),
  ("power-load", bleepload),
  ("softlock", rom),
  ("zydroload", speedlock)]

/-- The full signature byte list of an accelerator: the anchored first
opcode followed by the rest of the signature (`none` = wildcard). -/
def sigBytes (a : Accelerator) : List (Option Nat) :=
  a.opcode :: a.code

/-- True when the signature contains the adjacent literal byte pair
`0xDB 0xFE`, the encoding of `IN A,($FE)`. -/
def hasInPortFE : List (Option Nat) → Bool
  | some 0xDB :: some 0xFE :: _ => true
  | _ :: rest => hasInPortFE rest
  | [] => false

/-- The registry-wide invariant checked for claim C10: a literal counter
opcode in the anchored first position (`INC B`, or `DEC B` only for the
digital-integration entry), an `IN A,($FE)` byte pair somewhere in the
signature, and an EAR mask of either `0x20` or `0x40`. -/
def accInvariantB (p : String × Accelerator) : Bool :=
  (p.2.opcode == some 0x04 || (p.2.opcode == some 0x05 && p.1 == "digital-integration")) &&
  hasInPortFE (sigBytes p.2) &&
  (p.2.ear_mask == 0x20 || p.2.ear_mask == 0x40)

/-- Observable fields of the Simulator that `Tracer.trace` consults
(`utils/trace.py`): the running T-state total, the program counter and the
PUSH/POP counter (which can go negative). -/
structure SimulatorObs where
  tstates : Nat
  pc : Nat
  ppcount : Int
deriving DecidableEq

/-- The reference `Tracer`'s configuration and mutable state
(`utils/trace.py`, `Tracer.__init__`): `end_addr` embeds the Python
attribute `end` (default -1), `max_operations` and `max_tstates` default to
0, and `operations` counts instructions traced so far. -/
structure Tracer where
  end_addr : Int
  max_operations : Int
  max_tstates : Int
  operations : Nat
deriving DecidableEq

/-- One call of `Tracer.trace` (`utils/trace.py` lines 34-66), with the
diagnostic printing elided: the operation counter is incremented, then the
chain of stop conditions is evaluated in source order; the Python chained
comparison `a >= b > 0` is `a >= b ∧ b > 0`.  The returned Bool is the
truthiness of the Python return value (`True` or the implicit `None`). -/
def Tracer.traceStep (t : Tracer) (sim : SimulatorObs) : Tracer × Bool :=
  let ops : Nat := t.operations + 1
  let stop : Bool :=
    if (ops : Int) ≥ t.max_operations ∧ t.max_operations > 0 then true
    else if (sim.tstates : Int) ≥ t.max_tstates ∧ t.max_tstates > 0 then true
    else if (sim.pc : Int) = t.end_addr then true
    else if sim.ppcount < 0 ∧ t.max_operations ≤ 0 ∧ t.max_tstates ≤ 0 ∧ t.end_addr < 0 then true
    else false
  ({ t with operations := ops }, stop)

/-- Modelled from the spec: the 64 KiB memory image (§3) as a byte-valued
function on addresses; all address arithmetic wraps modulo 65536, which
`writeMem` applies at every store.  The fast-load engine, the tape decoder
and the Z80 simulator of the repository are not in the available source
tree, so memory and the loading functions below are built from the
specification text (§3, §4.3, §4.4, §7, §8). -/
def Mem : Type := Nat → Nat

/-- Modelled from the spec: a single byte store, with the address wrapped
modulo 65536 (§3 "wrapping modulo 65536 for all address arithmetic"). -/
def writeMem (mem : Mem) (addr val : Nat) : Mem :=
  fun a => if a = addr % 65536 then val else mem a

/-- Modelled from the spec: store a list of bytes at consecutive
(wrapping) addresses starting at `addr`. -/
def writeBytes (mem : Mem) (addr : Nat) : List Nat → Mem
  | [] => mem
  | v :: vs => writeBytes (writeMem mem addr v) (addr + 1) vs

/-- Modelled from the spec: the byte sequence a fast-loaded data block
deposits in memory (§4.3 edge cases, §8).  Exactly `declared` bytes are
produced: the available `stream` bytes first (a block longer than its
declared length is truncated to the declared length), and if the stream is
shorter than the declared length the remainder is filled with the last
byte actually read (`pad` is the last byte read before the stream, i.e.
the flag byte, used when the stream is empty). -/
def loadedBytes (declared : Nat) (stream : List Nat) (pad : Nat) : List Nat :=
  stream.take declared ++ List.replicate (declared - stream.length) (stream.getLastD pad)

/-- Modelled from the spec: fast-load one data block of header-declared
length `declared` to destination `dest`, the block supplying the byte
stream `stream` after its flag byte (§4.3). -/
def loadBlock (mem : Mem) (dest declared : Nat) (stream : List Nat) (pad : Nat) : Mem :=
  writeBytes mem dest (loadedBytes declared stream pad)

/-- Modelled from the spec: the error taxonomy of the fast-load engine and
the tape decoder (§7): fatal "not supported" recording-format blocks,
unknown block ids, and the fatal "unexpected end of tape" load error. -/
inductive TapeError where
  | notSupported (id : Nat)
  | unknownBlock (id : Nat)
  | unexpectedEndOfTape
deriving DecidableEq

/-- Modelled from the spec: the user-facing message of each fatal error
(§7, and the labels required by §4.4/§8: the "not supported" message names
the rejected block type). -/
def TapeError.message : TapeError → String
  | .notSupported 0x15 => "TZX Direct Recording (0x15) not supported"
  | .notSupported 0x18 => "TZX CSW Recording (0x18) not supported"
  | .notSupported 0x19 => "TZX Generalized Data Block (0x19) not supported"
  | .notSupported _ => "block type not supported"
  | .unknownBlock _ => "Unknown TZX block ID"
  | .unexpectedEndOfTape => "Failed to fast load block: unexpected end of tape"

/-- Modelled from the spec: the machine state the fast-load engine
maintains and finally hands to the snapshot codec (§4.3, §8): the memory
image, IX (one past the end of the last loaded block), IY (left at the
system-variable default 23610), PC, and the warnings written to the
diagnostic stream (§7: warnings do not stop processing). -/
structure LoadState where
  mem : Mem
  ix : Nat
  iy : Nat
  pc : Nat
  warnings : List String

/-- Modelled from the spec: append a warning to the diagnostic stream;
no other component of the state changes (§7(c)). -/
def LoadState.warn (st : LoadState) (w : String) : LoadState :=
  { st with warnings := st.warnings ++ [w] }

/-- Modelled from the spec: the initial machine state of a fast-load run
(IY holds the unmodified system-variable default 23610, §8). -/
def initState : LoadState :=
  { mem := fun _ => 0, ix := 0, iy := 23610, pc := 0, warnings := [] }

def headerlessWarning : String := "Ignoring headerless block"

def truncatedHeaderWarning : String := "Ignoring truncated header block"

def wrongFlagWarning : String := "Ignoring block with wrong flag byte"

/-- Modelled from the spec: the fields of a tape header block that drive
the following load (§3, §6): the data-type byte, the declared data length,
and the first parameter (the load address for a code header). -/
structure HeaderInfo where
  dtype : Nat
  length : Nat
  param1 : Nat
deriving DecidableEq

/-- Modelled from the spec: parse the payload of a header block (the bytes
after the leading flag byte): type byte, 10-byte name, 2-byte declared
length, 2-byte parameter 1, 2-byte parameter 2, checksum — 18 bytes in
all; a shorter payload is a truncated header (§7(c)). -/
def parseHeader (payload : List Nat) : Option HeaderInfo :=
  if payload.length < 18 then none
  else some { dtype := payload.getD 0 0,
              length := payload.getD 11 0 + 256 * payload.getD 12 0,
              param1 := payload.getD 13 0 + 256 * payload.getD 14 0 }

/-- Modelled from the spec: at a load step that expects a header, scan the
remaining blocks: a block whose flag byte is not the header flag 0, and a
truncated header block, are skipped with a warning while loading continues
(§4.3, §7(c)); an exhausted tape is the fatal unexpected-end-of-tape error
(§4.3 edge cases). -/
def findHeader (st : LoadState) : List (List Nat) → Except TapeError (HeaderInfo × List (List Nat) × LoadState)
  | [] => .error .unexpectedEndOfTape
  | b :: rest =>
    if b.head? = some 0 then
      match parseHeader b.tail with
      | some h => .ok (h, rest, st)
      | none => findHeader (st.warn truncatedHeaderWarning) rest
    else
      findHeader (st.warn headerlessWarning) rest

/-- Modelled from the spec: at a load step that expects a data block, scan
the remaining blocks: a block whose flag byte is not the data flag 255 is
skipped with a warning (§4.3); an exhausted tape is fatal.  A matching
block deposits `loadBlock` bytes at the destination and leaves IX one past
the end of the loaded region (§8); the bytes consumed from the block are
also returned (for the BASIC loader program's interpretation). -/
def findData (st : LoadState) (dest declared : Nat) : List (List Nat) → Except TapeError (List (List Nat) × LoadState × List Nat)
  | [] => .error .unexpectedEndOfTape
  | b :: rest =>
    if b.head? = some 255 then
      .ok (rest,
           { st with mem := loadBlock st.mem dest declared b.tail 255,
                     ix := (dest + declared) % 65536 },
           b.tail.take declared)
    else
      findData (st.warn wrongFlagWarning) dest declared rest

/-- Modelled from the spec: serve one LOAD request: find the next header
block, then load the following data block at the address the header
dictates — a code header (type 3) loads at its first parameter, a BASIC
program header loads at the program area, 23755 (§8 end-to-end
scenario). -/
def serveLoad (st : LoadState) (blocks : List (List Nat)) : Except TapeError (List (List Nat) × LoadState × List Nat) := do
  let (h, rest, st1) ← findHeader st blocks
  let dest := if h.dtype = 3 then h.param1 else 23755
  findData st1 dest h.length rest

/-- Modelled from the spec: serve `n` further LOAD requests in order from
the remaining tape blocks. -/
def serveN (st : LoadState) (blocks : List (List Nat)) : Nat → Except TapeError (List (List Nat) × LoadState)
  | 0 => .ok (blocks, st)
  | n + 1 => do
    let (rest, st1, _) ← serveLoad st blocks
    serveN st1 rest n

/-- Modelled from the spec: the number of LOAD requests the loaded BASIC
program performs — one per `LOAD ""` token sequence (239, 34, 34) in the
program, with or without a trailing CODE token (§8 scenario: the program
performs `LOAD ""CODE`). -/
def countLoads : List Nat → Nat
  | 239 :: 34 :: 34 :: rest => countLoads rest + 1
  | _ :: rest => countLoads rest
  | [] => 0

/-- Modelled from the spec: decimal digits up to a closing quote (34),
accumulating their value. -/
def parseDigits : List Nat → Nat → Option Nat
  | 34 :: _, acc => some acc
  | d :: rest, acc =>
    if 48 ≤ d ∧ d ≤ 57 then parseDigits rest (acc * 10 + (d - 48)) else none
  | [], _ => none

/-- Modelled from the spec: the address the BASIC loader jumps to after
loading — the quoted decimal argument of its `RANDOMIZE USR VAL "nnn"`
statement (token sequence 249, 192, 176, 34); PC ends there when no
explicit start address is given (§8 scenario). -/
def usrAddr : List Nat → Option Nat
  | 249 :: 192 :: 176 :: 34 :: rest => parseDigits rest 0
  | _ :: rest => usrAddr rest
  | [] => none

/-- Modelled from the spec: a fast-load run over the logical tape blocks
(each block is its flag byte followed by its bytes): load the BASIC
loader program first, then serve the LOAD requests that program performs,
and finally set PC to the loader's USR jump target (§4.3, §8). -/
def simLoad (tape : List (List Nat)) : Except TapeError LoadState := do
  let (rest, st1, prog) ← serveLoad initState tape
  let (_, st2) ← serveN st1 rest (countLoads prog)
  .ok { st2 with pc := (usrAddr prog).getD st2.pc }

/-- Modelled from the spec: one typed block of the richer tape container
(§6): a 1-byte block id and its type-specific body. -/
structure TzxBlock where
  id : Nat
  body : List Nat
deriving DecidableEq

/-- Modelled from the spec: the data-bearing block ids of the typed
container (§4.4): standard-speed data (0x10), turbo-speed data (0x11) and
pure data (0x14). -/
def TZX_DATA_IDS : List Nat := [0x10, 0x11, 0x14]

/-- Modelled from the spec: the recognized informational/control and
pulse-tone block ids that carry no loadable data and are skipped without
affecting loading (§4.4). -/
def TZX_SKIPPED_IDS : List Nat :=
  [0x12, 0x13, 0x20, 0x21, 0x22, 0x23, 0x24, 0x25, 0x26, 0x27, 0x28,
   0x2A, 0x2B, 0x30, 0x31, 0x32, 0x33, 0x35, 0x5A]

/-- Modelled from the spec: the recognized-but-unsupported pulse-level
recording block ids that must raise a fatal "not supported" error (§4.4):
Direct Recording (0x15), CSW Recording (0x18) and Generalized Data
(0x19). -/
def TZX_UNSUPPORTED_IDS : List Nat := [0x15, 0x18, 0x19]

/-- Modelled from the spec: turn the typed container's block sequence into
the logical data blocks a load consumes (§4.4): data blocks pass through,
recognized dataless blocks are skipped, an unsupported recording-format
block is the fatal, labeled "not supported" error, and an unrecognized
block id is always fatal.  A fatal block yields an error for the whole
sequence, so a load over it produces no snapshot. -/
def decodeTzx : List TzxBlock → Except TapeError (List (List Nat))
  | [] => .ok []
  | b :: rest =>
    if b.id ∈ TZX_DATA_IDS then do
      let blocks ← decodeTzx rest
      .ok (b.body :: blocks)
    else if b.id ∈ TZX_SKIPPED_IDS then
      decodeTzx rest
    else if b.id ∈ TZX_UNSUPPORTED_IDS then
      .error (.notSupported b.id)
    else
      .error (.unknownBlock b.id)

/-- Modelled from the spec: a fast-load run over a typed tape container:
decode the container, then load; a fatal decode error aborts the whole
load with no partial snapshot (§4.4, §8). -/
def simLoadTzx (tape : List TzxBlock) : Except TapeError LoadState := do
  let blocks ← decodeTzx tape
  simLoad blocks

/-- Modelled from the spec: a fast-load run with an optional
caller-supplied accelerator name: the name is validated against the
`ACCELERATORS` registry before anything else and rejected with a
descriptive error if absent, in which case no load step runs and no
machine state is produced (§4.2, §8). -/
def simLoadWithAccelerator (accel : Option String) (tape : List (List Nat)) :
    Except String LoadState :=
  match accel with
  | some name =>
    if (ACCELERATORS.lookup name).isSome then
      (simLoad tape).mapError TapeError.message
    else
      .error ("Unrecognised accelerator: " ++ name)
  | none => (simLoad tape).mapError TapeError.message

/-- Byte values of a string's characters (tape header names). -/
def strBytes (s : String) : List Nat :=
  s.data.map Char.toNat

/-- A tape header name padded with spaces to exactly 10 bytes. -/
def padName (s : String) : List Nat :=
  (strBytes s ++ List.replicate 10 32).take 10

/-- A 16-bit value as its two little-endian bytes. -/
def word (n : Nat) : List Nat :=
  [n % 256, n / 256 % 256]

/-- XOR checksum of a block's bytes. -/
def tapChecksum (bytes : List Nat) : Nat :=
  bytes.foldl (fun x y => x ^^^ y) 0

/-- A logical header block: flag 0, type byte, 10-byte name, declared
length, parameter 1, parameter 2, checksum. -/
def tapHeaderBlock (dtype : Nat) (name : String) (length p1 p2 : Nat) : List Nat :=
  let b := 0 :: dtype :: (padName name ++ word length ++ word p1 ++ word p2)
  b ++ [tapChecksum b]

/-- A logical data block: flag 255, the data bytes, checksum. -/
def tapDataBlock (data : List Nat) : List Nat :=
  let b := 255 :: data
  b ++ [tapChecksum b]

/-- The BASIC loader program of the C1 scenario: line 10 is
`LOAD ""CODE: RANDOMIZE USR VAL "32768"`. -/
def c1BasicData : List Nat :=
  [0, 10,
   16, 0,
   239, 34, 34, 175,
   58,
   249, 192, 176,
   34,
   51, 50, 55, 54, 56,
   34,
   13]

/-- The C1 scenario tape: a "simloadbas" BASIC header, the BASIC loader
program block, a "simloadbyt" code header for address 32768 and length 2,
and the 2-byte code data block [4, 5]. -/
def c1Tape : List (List Nat) :=
  [tapHeaderBlock 0 "simloadbas" c1BasicData.length 10 c1BasicData.length,
   tapDataBlock c1BasicData,
   tapHeaderBlock 3 "simloadbyt" 2 32768 0,
   tapDataBlock [4, 5]]

/-- The BASIC program of the C2 scenario: line 10 is `LOAD ""`, which
requests one more load from a tape that has no further blocks. -/
def c2BasicData : List Nat :=
  [0, 10,
   4, 0,
   239, 34, 34,
   13]

/-- The C2 scenario tape: the BASIC loader alone; its `LOAD ""` request
finds the tape exhausted. -/
def c2Tape : List (List Nat) :=
  [tapHeaderBlock 0 "simloadbas" c2BasicData.length 10 c2BasicData.length,
   tapDataBlock c2BasicData]

theorem writeBytes_eq_of_notin (vs : List Nat) (mem : Mem) (addr a : Nat)
    (hfit : addr + vs.length ≤ 65536) (ha : a < addr ∨ addr + vs.length ≤ a) :
    writeBytes mem addr vs a = mem a := by
  induction vs generalizing mem addr with
  | nil => rfl
  | cons v vs ih =>
    simp only [List.length_cons] at hfit ha
    rw [writeBytes, ih (writeMem mem addr v) (addr + 1) (by omega) (by omega)]
    have haddr : addr % 65536 = addr := Nat.mod_eq_of_lt (by omega)
    simp only [writeMem, haddr]
    rw [if_neg (by omega)]

theorem writeBytes_getD (vs : List Nat) (mem : Mem) (addr i : Nat)
    (hfit : addr + vs.length ≤ 65536) (hi : i < vs.length) :
    writeBytes mem addr vs (addr + i) = vs.getD i 0 := by
  induction vs generalizing mem addr i with
  | nil => simp at hi
  | cons v vs ih =>
    simp only [List.length_cons] at hfit hi
    match i with
    | 0 =>
      rw [Nat.add_zero, writeBytes,
          writeBytes_eq_of_notin vs (writeMem mem addr v) (addr + 1) addr (by omega) (by omega)]
      have haddr : addr % 65536 = addr := Nat.mod_eq_of_lt (by omega)
      simp [writeMem, haddr]
    | j + 1 =>
      rw [writeBytes, show addr + (j + 1) = (addr + 1) + j by omega,
          ih (writeMem mem addr v) (addr + 1) j (by omega) (by omega)]
      simp

theorem loadedBytes_length (declared : Nat) (stream : List Nat) (pad : Nat) :
    (loadedBytes declared stream pad).length = declared := by
  simp only [loadedBytes, List.length_append, List.length_take, List.length_replicate]
  omega

/-- C3: for every data block whose actual byte count is smaller than its
header-declared length, fast-loading fills the remainder of the
destination region, up to the declared length, with the value of the last
byte actually read (`getLastD` falls back to `pad`, the flag byte, when
no data byte was read at all); `loadBlock` is total, so the load cannot
crash or hang on such a block. -/
theorem c3_undersize_block_filled_with_last_byte (mem : Mem) (dest declared : Nat)
    (stream : List Nat) (pad : Nat)
    (hfit : dest + declared ≤ 65536) (hshort : stream.length < declared)
    (i : Nat) (hlo : stream.length ≤ i) (hhi : i < declared) :
    loadBlock mem dest declared stream pad (dest + i) = stream.getLastD pad := by
  rw [loadBlock,
      writeBytes_getD (loadedBytes declared stream pad) mem dest i
        (by rw [loadedBytes_length]; exact hfit)
        (by rw [loadedBytes_length]; exact hhi),
      loadedBytes, List.take_of_length_le (Nat.le_of_lt hshort),
      List.getD_append_right _ _ _ _ hlo,
      List.getD_eq_getElem _ _ (by simp; omega),
      List.getElem_replicate]

/-- C4: for every data block that contains more bytes than its
header-declared length, fast-loading writes exactly the declared number of
bytes (the i-th written byte is the block's i-th byte, for every i below
the declared length), and every memory address outside the declared
destination region — below the destination or at/after destination +
declared length — is unchanged. -/
theorem c4_overlong_block_writes_declared_only (mem : Mem) (dest declared : Nat)
    (stream : List Nat) (pad : Nat)
    (hfit : dest + declared ≤ 65536) (hlong : declared < stream.length) :
    (∀ i, i < declared → loadBlock mem dest declared stream pad (dest + i) = stream.getD i 0) ∧
    (∀ a, a < dest ∨ dest + declared ≤ a → loadBlock mem dest declared stream pad a = mem a) := by
  constructor
  · intro i hi
    rw [loadBlock,
        writeBytes_getD (loadedBytes declared stream pad) mem dest i
          (by rw [loadedBytes_length]; exact hfit)
          (by rw [loadedBytes_length]; exact hi),
        loadedBytes,
        List.getD_append _ _ _ _ (by simp; omega),
        List.getD_eq_getElem _ _ (by simp; omega),
        List.getElem_take,
        List.getD_eq_getElem _ _ (by omega)]
  · intro a ha
    rw [loadBlock,
        writeBytes_eq_of_notin (loadedBytes declared stream pad) mem dest a
          (by rw [loadedBytes_length]; exact hfit)
          (by rw [loadedBytes_length]; exact ha)]

theorem c3_witness :
    49152 + 5 ≤ 65536 ∧ ([201, 77] : List Nat).length < 5 ∧
    ([201, 77] : List Nat).length ≤ 3 ∧ 3 < 5 ∧
    loadBlock (fun _ => 0) 49152 5 [201, 77] 255 (49152 + 3) = ([201, 77] : List Nat).getLastD 255 :=
  ⟨by decide, by decide, by decide, by decide,
   c3_undersize_block_filled_with_last_byte (fun _ => 0) 49152 5 [201, 77] 255
     (by decide) (by decide) 3 (by decide) (by decide)⟩

theorem c4_witness :
    32768 + 2 ≤ 65536 ∧ 2 < ([4, 5, 6] : List Nat).length ∧
    loadBlock (fun _ => 0) 32768 2 [4, 5, 6] 255 (32768 + 1) = ([4, 5, 6] : List Nat).getD 1 0 ∧
    loadBlock (fun _ => 0) 32768 2 [4, 5, 6] 255 32770 = (fun _ => (0 : Nat)) 32770 :=
  ⟨by decide, by decide,
   (c4_overlong_block_writes_declared_only (fun _ => 0) 32768 2 [4, 5, 6] 255
     (by decide) (by decide)).1 1 (by decide),
   (c4_overlong_block_writes_declared_only (fun _ => 0) 32768 2 [4, 5, 6] 255
     (by decide) (by decide)).2 32770 (by decide)⟩

/-- C1: after a fast-load run of the scenario tape (a "simloadbas" BASIC
header, the BASIC loader performing `LOAD ""CODE` and jumping to 32768, a
code header, and the 2-byte code block [4, 5] with load address 32768,
with no explicit start address given), memory addresses 32768 and 32769
hold 4 and 5, IX is 32770 (one past the end of the last loaded block), IY
is 23610, and the run terminates with PC = 32768. -/
theorem c1_sim_load_scenario :
    (simLoad c1Tape).map (fun st => (st.mem 32768, st.mem 32769, st.ix, st.iy, st.pc)) =
      .ok (4, 5, 32770, 23610, 32768) := rfl

/-- C2: a tape exhausted while the loading routine still expects more
data is the fatal unexpected-end-of-tape error: both scanning for an
expected header block and scanning for an expected data block fail fatally
on an empty remainder, the C2 scenario tape (whose BASIC loader performs
one more `LOAD ""` than the tape can serve) fails with that error, and the
error carries the "unexpected end of tape" message.  Every load function
here is structurally recursive, hence total: the load terminates rather
than hanging or looping forever. -/
theorem c2_end_of_tape_is_fatal :
    (∀ st : LoadState, findHeader st [] = .error .unexpectedEndOfTape) ∧
    (∀ (st : LoadState) (dest declared : Nat),
      findData st dest declared [] = .error .unexpectedEndOfTape) ∧
    simLoad c2Tape = .error .unexpectedEndOfTape ∧
    TapeError.unexpectedEndOfTape.message = "Failed to fast load block: unexpected end of tape" :=
  ⟨fun _ => rfl, fun _ _ _ => rfl, rfl, rfl⟩

/-- C5: an explicitly named accelerator that is not a key of the
`ACCELERATORS` registry makes the load fail immediately with an
"unrecognised accelerator" error naming the rejected accelerator, and no
machine state is produced (in particular, no memory mutation reaches the
output). -/
theorem c5_unrecognised_accelerator_rejected (name : String) (tape : List (List Nat))
    (habs : ACCELERATORS.lookup name = none) :
    simLoadWithAccelerator (some name) tape = .error ("Unrecognised accelerator: " ++ name) ∧
    ∀ st : LoadState, simLoadWithAccelerator (some name) tape ≠ .ok st := by
  have h : simLoadWithAccelerator (some name) tape = .error ("Unrecognised accelerator: " ++ name) := by
    simp [simLoadWithAccelerator, habs]
  exact ⟨h, fun st hok => by rw [h] at hok; exact Except.noConfusion hok⟩

theorem c5_witness :
    ACCELERATORS.lookup "nope" = none ∧
    simLoadWithAccelerator (some "nope") [] = .error ("Unrecognised accelerator: " ++ "nope") :=
  ⟨by decide, (c5_unrecognised_accelerator_rejected "nope" [] (by decide)).1⟩

theorem tzxDisjointSkippedData : ∀ x ∈ TZX_SKIPPED_IDS, x ∉ TZX_DATA_IDS := by decide

theorem tzxDisjointUnsupported :
    ∀ x ∈ TZX_UNSUPPORTED_IDS, x ∉ TZX_DATA_IDS ∧ x ∉ TZX_SKIPPED_IDS := by decide

/-- C6: a tape container holding a TZX Direct Recording (0x15), CSW
Recording (0x18) or Generalized Data (0x19) block — after any number of
data-bearing or skippable blocks — makes both the decode and the whole
fast-load fail with the fatal "not supported" error carrying the block
type, so no partial snapshot is produced; and the error messages name the
block types as required. -/
theorem c6_unsupported_recording_blocks_fatal (pre : List TzxBlock) (b : TzxBlock)
    (rest : List TzxBlock)
    (hb : b.id ∈ TZX_UNSUPPORTED_IDS)
    (hpre : ∀ p ∈ pre, p.id ∈ TZX_DATA_IDS ∨ p.id ∈ TZX_SKIPPED_IDS) :
    decodeTzx (pre ++ b :: rest) = .error (.notSupported b.id) ∧
    simLoadTzx (pre ++ b :: rest) = .error (.notSupported b.id) ∧
    (TapeError.notSupported 0x15).message = "TZX Direct Recording (0x15) not supported" ∧
    (TapeError.notSupported 0x18).message = "TZX CSW Recording (0x18) not supported" ∧
    (TapeError.notSupported 0x19).message = "TZX Generalized Data Block (0x19) not supported" := by
  have hdec : decodeTzx (pre ++ b :: rest) = .error (.notSupported b.id) := by
    induction pre with
    | nil =>
      have hnd := (tzxDisjointUnsupported b.id hb).1
      have hns := (tzxDisjointUnsupported b.id hb).2
      simp only [List.nil_append, decodeTzx, if_neg hnd, if_neg hns, if_pos hb]
    | cons p pre ih =>
      have hih := ih (fun q hq => hpre q (List.mem_cons_of_mem p hq))
      rcases hpre p (List.mem_cons_self p _) with hp | hp
      · simp only [List.cons_append, decodeTzx, if_pos hp]
        rw [List.append_eq, hih]
        rfl
      · have hnd := tzxDisjointSkippedData p.id hp
        simp only [List.cons_append, decodeTzx, if_neg hnd, if_pos hp]
        exact hih
  refine ⟨hdec, ?_, rfl, rfl, rfl⟩
  unfold simLoadTzx
  rw [hdec]
  rfl

theorem c6_witness :
    (21 ∈ TZX_UNSUPPORTED_IDS) ∧
    decodeTzx [⟨21, [79, 0, 0, 0, 8, 3, 0, 0, 1, 2, 3]⟩] =
      .error (.notSupported 21) :=
  ⟨by decide,
   (c6_unsupported_recording_blocks_fatal [] ⟨21, [79, 0, 0, 0, 8, 3, 0, 0, 1, 2, 3]⟩ []
     (by decide) (by simp)).1⟩

/-- C7: each alias key of the registry resolves to exactly the entry of
its canonical key — the very same record, so identical signature bytes,
`in_time`, `loop_time`, `loop_r_inc` and `ear_mask` — with the canonical
keys being `bleepload`, `rom`, `speedlock` and `dinaload` (many-to-one
name resolution over entries stored once). -/
theorem c7_aliases_resolve_to_canonical_entries :
    ACCELERATORS.lookup "cyberlode" = some bleepload ∧
    ACCELERATORS.lookup "excelerator" = some bleepload ∧
    ACCELERATORS.lookup "injectaload" = some bleepload ∧
    ACCELERATORS.lookup "power-load" = some bleepload ∧
    ACCELERATORS.lookup "bleepload" = some bleepload ∧
    ACCELERATORS.lookup "edge" = some rom ∧
    ACCELERATORS.lookup "flash-loader" = some rom ∧
    ACCELERATORS.lookup "hewson-slowload" = some rom ∧
    ACCELERATORS.lookup "softlock" = some rom ∧
    ACCELERATORS.lookup "rom" = some rom ∧
    ACCELERATORS.lookup "elite-uni-loader" = some speedlock ∧
    ACCELERATORS.lookup "ftl" = some speedlock ∧
    ACCELERATORS.lookup "gargoyle" = some speedlock ∧
    ACCELERATORS.lookup "zydroload" = some speedlock ∧
    ACCELERATORS.lookup "speedlock" = some speedlock ∧
    ACCELERATORS.lookup "poliload" = some dinaload ∧
    ACCELERATORS.lookup "dinaload" = some dinaload := by
  decide

/-- C8: the recoverable anomalies are skipped with a warning and loading
continues: a block whose flag byte is not the header flag at a
header-expecting step, a truncated header block, and a block whose flag
byte is not the data flag at a data-expecting step each reduce the load to
the same load on the remaining blocks with only a warning appended; the
warning-only state change leaves memory untouched, so the skipped block
causes no memory mutation. -/
theorem c8_anomalous_blocks_skipped_with_warning (st : LoadState) (b : List Nat)
    (rest : List (List Nat)) (dest declared : Nat) :
    (b.head? ≠ some 0 →
      findHeader st (b :: rest) = findHeader (st.warn headerlessWarning) rest) ∧
    (b.head? = some 0 → parseHeader b.tail = none →
      findHeader st (b :: rest) = findHeader (st.warn truncatedHeaderWarning) rest) ∧
    (b.head? ≠ some 255 →
      findData st dest declared (b :: rest) =
        findData (st.warn wrongFlagWarning) dest declared rest) ∧
    (∀ w : String, (st.warn w).mem = st.mem ∧ (st.warn w).warnings = st.warnings ++ [w]) := by
  refine ⟨fun h => ?_, fun h0 htrunc => ?_, fun h => ?_, fun w => ⟨rfl, rfl⟩⟩
  · simp [findHeader, h]
  · simp [findHeader, h0, htrunc]
  · simp [findData, h]

theorem c8_witness :
    (([255, 1, 2] : List Nat).head? ≠ some 0) ∧
    findHeader initState [[255, 1, 2]] = findHeader (initState.warn headerlessWarning) [] ∧
    (initState.warn headerlessWarning).mem = initState.mem :=
  ⟨by decide,
   (c8_anomalous_blocks_skipped_with_warning initState [255, 1, 2] [] 0 0).1 (by decide),
   ((c8_anomalous_blocks_skipped_with_warning initState [255, 1, 2] [] 0 0).2.2.2
     headerlessWarning).1⟩

/-- C9: the reference Tracer's per-instruction callback returns a truthy
stop signal exactly when the executed-operation count reaches a positive
`max_operations`, or the simulator's T-state total reaches a positive
`max_tstates`, or PC equals the configured end address, or — only when
none of those three limits is configured — the PUSH/POP count went
negative; in every other case the callback lets execution continue. -/
theorem c9_tracer_stop_conditions (t : Tracer) (sim : SimulatorObs) :
    (t.traceStep sim).2 = true ↔
      (t.max_operations > 0 ∧ ((t.operations : Int) + 1) ≥ t.max_operations) ∨
      (t.max_tstates > 0 ∧ (sim.tstates : Int) ≥ t.max_tstates) ∨
      ((sim.pc : Int) = t.end_addr) ∨
      (sim.ppcount < 0 ∧ t.max_operations ≤ 0 ∧ t.max_tstates ≤ 0 ∧ t.end_addr < 0) := by
  simp only [Tracer.traceStep]
  split_ifs with h1 h2 h3 h4 <;> (simp_all; try omega)

/-- C10: every entry of the registry — canonical and alias keys alike —
has a literal (non-wildcard) first signature byte that is 0x04 (`INC B`),
or 0x05 (`DEC B`) exactly for the digital-integration entry; contains the
literal adjacent byte pair 0xDB 0xFE (`IN A,($FE)`); and has an EAR mask
of 0x20 or 0x40. -/
theorem c10_registry_invariant : ACCELERATORS.all accInvariantB = true := by decide

end SkoolKit
